import Mathlib

/-!
Shallow embedding of the momo diagnostics tool (helwan-linux/momo).

The central artifact is the curses variant src/momo2/momo.py: its
streaming run loop (MomoApp.run_test, lines 247-292) consuming the
generator run_command_stream (lines 83-106), its menu loop
(MomoApp.run_menu, lines 185-211), and its key dispatch.  The
non-curses variants contribute the tool-presence check
(momo2/momo9.py, Momos/momo7.py is_tool_installed), the skip prompt of
momo2/momo10.py run_test, the install flow of Momos/momo6.py
MomoTUI.run_test, and the disk selection of momo2/momo10.py
select_disk.  Python ints are modelled as Int, strings as String,
the shared mutable stop flag and the generator protocol as explicit
state passing.
-/

namespace Momo

/-- The static test table of src/momo2/momo.py (name, command, tool). -/
def TESTS : List (String × String × String) := [
  ("RAM Usage", "free -h", "free"),
  ("RAM Details", "cat /proc/meminfo", "cat"),
  ("RAM Stress Test (30s)", "stress-ng --vm 2 --vm-bytes 75% --cpu 2 --timeout 30s", "stress-ng"),
  ("Memtester 512M", "memtester 512M 1", "memtester"),
  ("Memory Speed", "sysbench memory --memory-block-size=1M --memory-total-size=512M run", "sysbench"),
  ("Swap Usage", "swapon --show", "swapon"),
  ("CPU Info", "lscpu", "lscpu"),
  ("CPU Stress Test (20s)", "stress-ng --cpu 2 --timeout 20s", "stress-ng"),
  ("Smart Status", "smartctl -a /dev/sda", "smartctl"),
  ("Disk Speed", "hdparm -tT /dev/sda", "hdparm"),
  ("Disk Usage", "df -h", "df"),
  ("Sensors", "sensors", "sensors"),
  ("Ping Test", "ping -c 2 google.com", "ping")]

/-- ncurses KEY_UP code returned by getch. -/
def KEY_UP : Int := 259

/-- ncurses KEY_DOWN code returned by getch. -/
def KEY_DOWN : Int := 258

/-- ncurses ERR, returned by getch in nodelay mode when no key is pending. -/
def KEY_ERR : Int := -1

/-- ncurses KEY_ENTER code. -/
def KEY_ENTER : Int := 343

/-- Events produced by the key dispatch of the streaming loop. -/
inductive StreamEvent where
  | scrollUp
  | scrollDown
  | stop
  | noEvent
deriving DecidableEq, Repr

/-- The key dispatch of MomoApp.run_test, src/momo2/momo.py lines 272-280:
KEY_UP scrolls up, KEY_DOWN scrolls down, key codes 115 and 113
(lowercase s and q) request a stop, everything else does nothing. -/
def streamEvent (c : Int) : StreamEvent :=
  if c = KEY_UP then .scrollUp
  else if c = KEY_DOWN then .scrollDown
  else if c = 115 ∨ c = 113 then .stop
  else .noEvent

/-- pad_height of run_test, line 237: maximum lines in the pad buffer. -/
def padHeight : Nat := 5000

/-- The synthetic line appended when the pad buffer is full, line 250. -/
def padFullMsg : String := "--- PAD BUFFER FULL. Output truncated. ---"

/-- The line yielded by run_command_stream after terminating the child, line 96. -/
def termMsg : String := "\n--- Test Terminated by User ---"

/-- The line yielded by run_command_stream on FileNotFoundError, line 104. -/
def errLine (cmd : String) : String :=
  "ERROR: Command not found or tool not installed. Command: " ++ cmd

/-- Mutable state of the body of the streaming for-loop in run_test:
the transcript list, the pad scroll offset, idx_line, and the shared
stop flag dictionary. -/
structure LoopSt where
  buf : List String
  off : Int
  idx : Nat
  stop : Bool
deriving DecidableEq, Repr

/-- Outcome of one iteration of the for-loop body: continue looping or break. -/
inductive StepRes where
  | cont (s : LoopSt)
  | brk (s : LoopSt)
deriving DecidableEq, Repr

/-- The state after a step, whether it continued or broke. -/
def StepRes.st : StepRes → LoopSt
  | .cont s => s
  | .brk s => s

/-- One iteration of the for-loop body of run_test (lines 247-283) upon
receiving line l from the generator, with key the result of getch and
h6 the value of self.height - 6.  Order follows the source: pad-full
check, append, idx_line increment, auto-scroll adjustment, key dispatch. -/
def consumeLine (h6 : Int) (key : Int) (l : String) (s : LoopSt) : StepRes :=
  if s.idx ≥ padHeight then
    .brk { s with buf := s.buf ++ [padFullMsg] }
  else
    let buf := s.buf ++ [l]
    let idx := s.idx + 1
    let off := if (idx : Int) > h6 ∧ s.off < (idx : Int) - h6 then (idx : Int) - h6 else s.off
    match streamEvent key with
    | .scrollUp => .cont { buf := buf, off := max 0 (off - 1), idx := idx, stop := s.stop }
    | .scrollDown => .cont { buf := buf, off := off + 1, idx := idx, stop := s.stop }
    | .stop => .brk { buf := buf, off := off, idx := idx, stop := true }
    | .noEvent => .cont { buf := buf, off := off, idx := idx, stop := s.stop }

/-- Observable outcome of one run of run_test: the transcript handed to
write_log_stream, the final pad offset, the child output lines never
read from the pipe, whether process.terminate was called, whether the
child was waited on, and whether the log write was reached. -/
structure RunResult where
  buffer : List String
  offset : Int
  remaining : List String
  terminated : Bool
  waited : Bool
  logWritten : Bool
deriving DecidableEq, Repr

/-- The combined execution of the run_test for-loop with the
run_command_stream generator (single threaded: the generator advances
exactly when the consumer asks for the next line).  rem holds the
child output lines not yet read, keys the pending getch results (ERR
once exhausted).  On resume the generator first checks the stop flag
(line 92): if set it terminates and waits the child and yields the
termination message, after which the next resume ends the stream.
Otherwise it yields the next child line, or ends the stream after
waiting the child when the output is exhausted (lines 100-101). -/
def runLoop (h6 : Int) : List String → List Int → LoopSt → RunResult
  | rem, keys, s =>
    if s.stop then
      match consumeLine h6 (keys.headD KEY_ERR) termMsg s with
      | .brk s1 => ⟨s1.buf, s1.off, rem, true, true, true⟩
      | .cont s1 => ⟨s1.buf, s1.off, rem, true, true, true⟩
    else
      match rem with
      | [] => ⟨s.buf, s.off, [], false, true, true⟩
      | l :: rest =>
        match consumeLine h6 (keys.headD KEY_ERR) l s with
        | .brk s1 => ⟨s1.buf, s1.off, rest, false, false, true⟩
        | .cont s1 => runLoop h6 rest keys.tail s1

/-- MomoApp.run_test from the display setup onward: spawnOk tells
whether Popen succeeded (false models FileNotFoundError, in which case
the generator yields the single error line of line 104 and ends);
procLines is the child output, keys the getch schedule, screenH the
terminal height.  The loop always falls through to write_log_stream
and show_message (lines 291-292). -/
def runTest (spawnOk : Bool) (cmd : String) (procLines : List String)
    (keys : List Int) (screenH : Int) : RunResult :=
  let h6 := screenH - 6
  if spawnOk then
    runLoop h6 procLines keys ⟨[], 0, 0, false⟩
  else
    match consumeLine h6 (keys.headD KEY_ERR) (errLine cmd) ⟨[], 0, 0, false⟩ with
    | .brk s1 => ⟨s1.buf, s1.off, [], false, false, true⟩
    | .cont s1 => ⟨s1.buf, s1.off, [], false, false, true⟩

/-- Suspension points of the run_command_stream generator
(src/momo2/momo.py lines 83-106), for driving it standalone: fresh,
suspended at the yield of an output line, suspended at the yield of
the termination message, or finished. -/
inductive GenSt where
  | start (rem : List String)
  | afterYield (rem : List String)
  | afterTermYield
  | done
deriving DecidableEq, Repr

/-- Result of advancing the generator once: the yielded line (none for
end of stream), the next suspension point, and whether this step
called process.terminate. -/
structure GenOut where
  out : Option String
  next : GenSt
  termCalled : Bool
deriving DecidableEq, Repr

/-- One resume of the run_command_stream generator under the current
value of the shared stop flag.  The flag is inspected only right after
an output line yield (line 92); a set flag there triggers the single
terminate plus wait plus termination-message yield (lines 94-96),
after which the generator breaks out of its loop and ends. -/
def genNext (flag : Bool) : GenSt → GenOut
  | .start [] => ⟨none, .done, false⟩
  | .start (l :: rest) => ⟨some l, .afterYield rest, false⟩
  | .afterYield rem =>
    if flag then ⟨some termMsg, .afterTermYield, true⟩
    else
      match rem with
      | [] => ⟨none, .done, false⟩
      | l :: rest => ⟨some l, .afterYield rest, false⟩
  | .afterTermYield => ⟨none, .done, false⟩
  | .done => ⟨none, .done, false⟩

/-- Number of terminate calls over a schedule of generator resumes,
each resume seeing an arbitrary value of the stop flag. -/
def countTerms (g : GenSt) : List Bool → Nat
  | [] => 0
  | f :: fs =>
    let o := genNext f g
    (if o.termCalled then 1 else 0) + countTerms o.next fs

/-- Setting the stop request: stop_flag is a dictionary and the request
writes True into it (line 278). -/
def requestStop (_f : Bool) : Bool := true

/-- Python str.strip: drop leading and trailing whitespace. -/
def pyStrip (s : String) : String :=
  ⟨((s.data.dropWhile Char.isWhitespace).reverse.dropWhile Char.isWhitespace).reverse⟩

/-- Python str.lower on the ASCII range. -/
def pyLower (s : String) : String := ⟨s.data.map Char.toLower⟩

/-- Python int() on a digit string. -/
def pyToNat (s : String) : Nat :=
  s.data.foldl (fun n c => 10 * n + (c.toNat - 48)) 0

/-- The tool gate of run_test in src/momo2/momo10.py lines 93-96: when
the tool is missing, ask Skip? and return only when the stripped,
lowercased answer is the single letter n; the result tells whether
run_test proceeds to spawn the command. -/
def momo10SkipGate (toolInstalled : Bool) (answer : String) : Bool :=
  if toolInstalled then true
  else if pyLower (pyStrip answer) = "n" then false
  else true

/-- The tool gate of MomoTUI.run_test in src/Momos/momo6.py lines
246-255: when the tool is missing, ask whether to install; on yes run
install_tool and return when it failed; on no return; the result tells
whether run_test proceeds past the tool check. -/
def momo6ToolGate (toolInstalled installAnswer installOk : Bool) : Bool :=
  if toolInstalled then true
  else if installAnswer then
    (if installOk then true else false)
  else false

/-- Whitelist of is_tool_installed in src/momo2/momo9.py line 37. -/
def whitelist9 : List String := ["cat", "free", "swapon", "df", "ping"]

/-- Whitelist of is_tool_installed in src/Momos/momo7.py line 76. -/
def whitelist7 : List String := ["cat", "free", "swapon", "df", "ping", "uptime", "uname", "top"]

/-- is_tool_installed of src/momo2/momo9.py lines 36-39, with the
shutil.which lookup abstracted as an oracle on tool names. -/
def is_tool_installed_momo9 (which : String → Bool) (tool : String) : Bool :=
  if tool ∈ whitelist9 then true else which tool

/-- is_tool_installed of src/Momos/momo7.py lines 75-78, with the
shutil.which lookup abstracted as an oracle on tool names. -/
def is_tool_installed_momo7 (which : String → Bool) (tool : String) : Bool :=
  if tool ∈ whitelist7 then true else which tool

/-- MomoApp.run_menu of src/momo2/momo.py lines 185-211 as a function
of the getch sequence: KEY_UP and KEY_DOWN move the selection with the
clamps of lines 193-196; Enter on the Exit entry (index length of
TESTS plus 1) breaks, Enter elsewhere runs the selection and loops; a
or A runs all tests and loops; q or Q breaks; other keys loop. -/
def runMenu : List Int → Int → Int
  | [], sel => sel
  | c :: rest, sel =>
    if c = KEY_UP then runMenu rest (max 0 (sel - 1))
    else if c = KEY_DOWN then runMenu rest (min ((TESTS.length : Int) + 1) (sel + 1))
    else if c = KEY_ENTER ∨ c = 10 ∨ c = 13 then
      (if sel = (TESTS.length : Int) + 1 then sel else runMenu rest sel)
    else if c = 97 ∨ c = 65 then runMenu rest sel
    else if c = 113 ∨ c = 81 then sel
    else runMenu rest sel

/-- Outcomes of select_disk in src/momo2/momo10.py lines 53-76: no
disks found (returns None before any prompt), a chosen disk, user
cancellation with q, or the modelled input schedule running out while
the Python loop would keep prompting. -/
inductive SelectOutcome where
  | noDisks
  | chosen (d : String)
  | cancelled
  | inputExhausted
deriving DecidableEq, Repr

/-- Python str.isdigit: nonempty and all characters digits. -/
def isDigitStr (s : String) : Bool := !s.data.isEmpty && s.data.all Char.isDigit

/-- The prompt loop of select_disk (momo10.py lines 71-76): strip the
answer; q cancels; an in-range number picks that disk; anything else
re-prompts. -/
def promptLoop10 (disks : List String) : List String → SelectOutcome
  | [] => .inputExhausted
  | i :: rest =>
    let c := pyStrip i
    if pyLower c = "q" then .cancelled
    else
      let n := pyToNat c
      if isDigitStr c ∧ 1 ≤ n ∧ n ≤ disks.length then .chosen (disks.getD (n - 1) "")
      else promptLoop10 disks rest

/-- select_disk of src/momo2/momo10.py lines 53-76, with the enumerated
disk list and the schedule of input answers as parameters: empty list
returns None at once; a singleton is returned without prompting;
otherwise the prompt loop runs. -/
def select_disk10 (disks : List String) (inputs : List String) : SelectOutcome :=
  if disks.length = 0 then .noDisks
  else if disks.length = 1 then .chosen (disks.headD "")
  else promptLoop10 disks inputs

lemma consumeLine_off (h6 k : Int) (l : String) (s : LoopSt) (h : 0 ≤ s.off) :
    0 ≤ (consumeLine h6 k l s).st.off := by
  unfold consumeLine
  split
  · simpa [StepRes.st] using h
  · cases hse : streamEvent k <;> simp [StepRes.st] <;> split <;> omega

lemma runLoop_off (h6 : Int) (rem : List String) (keys : List Int) (s : LoopSt)
    (h : 0 ≤ s.off) : 0 ≤ (runLoop h6 rem keys s).offset := by
  induction rem generalizing keys s with
  | nil =>
    rw [runLoop]
    split
    · have := consumeLine_off h6 (keys.headD KEY_ERR) termMsg s h
      split <;> rename_i heq <;> rw [heq] at this <;> simpa [StepRes.st] using this
    · simpa using h
  | cons l rest ih =>
    rw [runLoop]
    split
    · have := consumeLine_off h6 (keys.headD KEY_ERR) termMsg s h
      split <;> rename_i heq <;> rw [heq] at this <;> simpa [StepRes.st] using this
    · have := consumeLine_off h6 (keys.headD KEY_ERR) l s h
      split <;> rename_i heq <;> rw [heq] at this
      · simpa [StepRes.st] using this
      · exact ih _ _ (by simpa [StepRes.st] using this)

lemma streamEvent_err : streamEvent KEY_ERR = .noEvent := by decide

lemma runLoop_nokeys (h6 : Int) (rem : List String) :
    ∀ s : LoopSt, s.stop = false →
    (runLoop h6 rem [] s).buffer =
      s.buf ++ rem.take (padHeight - s.idx) ++
        (if padHeight - s.idx < rem.length then [padFullMsg] else []) := by
  induction rem with
  | nil =>
    intro s hs
    rw [runLoop]
    simp [hs]
  | cons l rest ih =>
    intro s hs
    rw [runLoop]
    simp only [hs, if_neg Bool.false_ne_true]
    rw [show ([] : List Int).headD KEY_ERR = KEY_ERR from rfl]
    by_cases hidx : s.idx ≥ padHeight
    · have h1 : padHeight - s.idx = 0 := by omega
      have : consumeLine h6 KEY_ERR l s = .brk { s with buf := s.buf ++ [padFullMsg] } := by
        unfold consumeLine; rw [if_pos hidx]
      rw [this]
      simp [h1]
    · obtain ⟨o, h2⟩ : ∃ o, consumeLine h6 KEY_ERR l s = .cont
        { buf := s.buf ++ [l], off := o, idx := s.idx + 1, stop := s.stop } := by
        unfold consumeLine
        rw [if_neg hidx, streamEvent_err]
        exact ⟨_, rfl⟩
      rw [h2]
      dsimp only
      rw [show ([] : List Int).tail = [] from rfl]
      rw [ih _ (by simpa using hs)]
      have h3 : padHeight - s.idx = (padHeight - (s.idx + 1)) + 1 := by omega
      rw [h3]
      simp only [List.take_succ_cons, List.length_cons]
      have h4 : (padHeight - (s.idx + 1)) + 1 < rest.length + 1 ↔
          padHeight - (s.idx + 1) < rest.length := by omega
      simp only [h4]
      simp

lemma countTerms_done (fs : List Bool) : countTerms GenSt.done fs = 0 := by
  induction fs with
  | nil => rfl
  | cons f fs ih => simp [countTerms, genNext, ih]

lemma countTerms_afterTerm (fs : List Bool) : countTerms GenSt.afterTermYield fs = 0 := by
  cases fs with
  | nil => rfl
  | cons f fs => simp [countTerms, genNext, countTerms_done]

lemma countTerms_afterYield (fs : List Bool) :
    ∀ rem, countTerms (GenSt.afterYield rem) fs ≤ 1 := by
  induction fs with
  | nil => intro rem; simp [countTerms]
  | cons f fs ih =>
    intro rem
    cases f with
    | true => simp [countTerms, genNext, countTerms_afterTerm]
    | false =>
      cases rem with
      | nil => simp [countTerms, genNext, countTerms_done]
      | cons l rest => simpa [countTerms, genNext] using ih rest

lemma countTerms_start (rem : List String) (fs : List Bool) :
    countTerms (GenSt.start rem) fs ≤ 1 := by
  cases fs with
  | nil => simp [countTerms]
  | cons f fs =>
    cases rem with
    | nil => simp [countTerms, genNext, countTerms_done]
    | cons l rest => simpa [countTerms, genNext] using countTerms_afterYield fs rest

lemma runMenu_bounds (keys : List Int) :
    ∀ sel : Int, 0 ≤ sel → sel ≤ (TESTS.length : Int) + 1 →
    0 ≤ runMenu keys sel ∧ runMenu keys sel ≤ (TESTS.length : Int) + 1 := by
  induction keys with
  | nil => intro sel h0 h1; simpa [runMenu] using ⟨h0, h1⟩
  | cons c rest ih =>
    intro sel h0 h1
    rw [runMenu]
    split
    · exact ih _ (le_max_left 0 _) (max_le (by omega) (by omega))
    · split
      · exact ih _ (le_min (by omega) (by omega)) (min_le_left _ _)
      · split
        · split
          · exact ⟨h0, h1⟩
          · exact ih _ h0 h1
        · split
          · exact ih _ h0 h1
          · split
            · exact ⟨h0, h1⟩
            · exact ih _ h0 h1

lemma runTest_true_eq (cmd : String) (ps : List String) (keys : List Int) (h : Int) :
    runTest true cmd ps keys h = runLoop (h - 6) ps keys ⟨[], 0, 0, false⟩ := rfl

/-- Claim C1 (code bug): the claim says a user Stop event makes the run
loop request termination of the child and wait on it before log
persistence.  In the code, run_test sets the stop flag and immediately
breaks out of the for-loop (lines 277-280), so the generator is never
resumed and the terminate and wait calls of run_command_stream (lines
94-95) are unreachable: on the failing input (three output lines, key
s after the first) the run reaches log persistence with terminate
never called, the child never waited on, and two lines still unread in
the pipe, i.e. the child still running. -/
theorem stop_key_never_terminates_child :
    (runTest true "yes" ["l0", "l1", "l2"] [115] 20).terminated = false
  ∧ (runTest true "yes" ["l0", "l1", "l2"] [115] 20).waited = false
  ∧ (runTest true "yes" ["l0", "l1", "l2"] [115] 20).remaining = ["l1", "l2"]
  ∧ (runTest true "yes" ["l0", "l1", "l2"] [115] 20).logWritten = true := by decide

/-- Claim C2, counterexample: with a single buffered line and one
KEY_DOWN press on a height-20 screen, the offset becomes 1, strictly
above the claimed upper bound max(0, bufferLength - visibleHeight) = 0,
because the KEY_DOWN branch (line 276) has no clamp. -/
theorem scroll_down_exceeds_bottom :
    (runTest true "c" ["a"] [KEY_DOWN] 20).offset = 1
  ∧ (runTest true "c" ["a"] [KEY_DOWN] 20).buffer.length = 1
  ∧ ¬ ((runTest true "c" ["a"] [KEY_DOWN] 20).offset ≤
        max 0 (((runTest true "c" ["a"] [KEY_DOWN] 20).buffer.length : Int) - (20 - 6))) := by
  decide

/-- Claim C2, amended: over every sequence of line arrivals and key
events, the viewport offset stays at or above 0 (scroll-up clamps at 0
and auto-scroll only assigns nonnegative values); the claimed upper
bound does not hold because scroll-down is unclamped. -/
theorem viewport_offset_nonneg (spawnOk : Bool) (cmd : String) (ps : List String)
    (keys : List Int) (h : Int) : 0 ≤ (runTest spawnOk cmd ps keys h).offset := by
  unfold runTest
  dsimp only
  split
  · exact runLoop_off _ _ _ _ le_rfl
  · have hc := consumeLine_off (h - 6) (keys.headD KEY_ERR) (errLine cmd) ⟨[], 0, 0, false⟩ le_rfl
    split <;> rename_i heq <;> rw [heq] at hc <;> simpa [StepRes.st] using hc

/-- Claim C3, amended: when a command emits more than the pad capacity
of 5000 lines (and no keys are pressed), run_test stops streaming at
the capacity: the final buffer is the oldest 5000 lines followed by
one synthetic truncation marker at the tail, total length 5001; the
newest lines are dropped, not the oldest. -/
theorem truncation_keeps_oldest (cmd : String) (ps : List String) (h : Int)
    (hlen : padHeight < ps.length) :
    (runTest true cmd ps [] h).buffer = ps.take padHeight ++ [padFullMsg]
  ∧ (runTest true cmd ps [] h).buffer.length = padHeight + 1 := by
  have hb := runLoop_nokeys (h - 6) ps ⟨[], 0, 0, false⟩ rfl
  have hbuf : (runTest true cmd ps [] h).buffer = ps.take padHeight ++ [padFullMsg] := by
    rw [runTest_true_eq, hb]; simp [hlen]
  refine ⟨hbuf, ?_⟩
  rw [hbuf]
  simp [List.length_take]
  omega

/-- Claim C3, witness: the amended theorem applied at a concrete
5001-line output. -/
theorem truncation_keeps_oldest_witness :
    padHeight < (List.replicate 5001 "x").length
  ∧ (runTest true "cmd" (List.replicate 5001 "x") [] 20).buffer.length = padHeight + 1 :=
  ⟨by rw [List.length_replicate]; decide,
   (truncation_keeps_oldest "cmd" _ 20 (by rw [List.length_replicate]; decide)).2⟩

/-- Claim C3, counterexample: on a 5001-line output the final buffer
has length 5001, not the claimed capacity 5000. -/
theorem buffer_not_capped_at_capacity :
    ¬ ((runTest true "cmd" (List.replicate 5001 "x") [] 20).buffer.length = 5000) := by
  have hb := runLoop_nokeys (20 - 6 : Int) (List.replicate 5001 "x") ⟨[], 0, 0, false⟩ rfl
  rw [runTest_true_eq, hb]
  rw [List.take_replicate]
  simp only [List.length_append, List.length_replicate, List.length_cons, List.length_nil,
    List.length_singleton]
  have hcond : padHeight - (0 : Nat) < 5001 := by decide
  rw [if_pos hcond]
  have hmin : min (padHeight - 0) 5001 = 5000 := by decide
  simp only [List.length_cons, List.length_nil, hmin]
  omega

/-- Claim C4 (code bug): the claim says a test whose tool is absent is
run only after a successful requested installation.  In momo2/momo10.py
the Skip? prompt is inverted: answering y (agree to skip) falls through
and spawns the command with the tool absent and no installation,
while answering n returns without running; the install flow of
Momos/momo6.py (third conjunct) does conform to the claim, proceeding
exactly when the user accepts the install and it succeeds. -/
theorem momo10_skip_prompt_inverted :
    momo10SkipGate false "y" = true
  ∧ momo10SkipGate false "n" = false
  ∧ (∀ a ok : Bool, momo6ToolGate false a ok = (a && ok)) := by
  refine ⟨by decide, by decide, ?_⟩
  intro a ok
  cases a <;> cases ok <;> rfl

/-- Claim C5: requesting a stop is idempotent.  Over every schedule of
generator resumes with arbitrary stop-flag values, run_command_stream
calls process.terminate at most once; after end of stream no resume
ever terminates; and setting the flag twice equals setting it once. -/
theorem stop_request_idempotent (rem : List String) (flags flags2 : List Bool) (f : Bool) :
    countTerms (GenSt.start rem) flags ≤ 1
  ∧ countTerms GenSt.done flags2 = 0
  ∧ requestStop (requestStop f) = requestStop f :=
  ⟨countTerms_start rem flags, countTerms_done flags2, rfl⟩

/-- Claim C6: when the spawn fails, the transcript is exactly the one
synthetic error line of run_command_stream line 104, for every key
schedule, and the run still reaches log persistence, after which
run_test returns to the menu loop. -/
theorem spawn_error_single_line (cmd : String) (ps : List String) (keys : List Int) (h : Int) :
    (runTest false cmd ps keys h).buffer = [errLine cmd]
  ∧ (runTest false cmd ps keys h).logWritten = true := by
  unfold runTest
  dsimp only
  rw [if_neg (by decide : ¬ (false = true))]
  have h0 : ¬ ((⟨[], 0, 0, false⟩ : LoopSt).idx ≥ padHeight) := by decide
  unfold consumeLine
  rw [if_neg h0]
  cases hse : streamEvent (keys.headD KEY_ERR) <;> exact ⟨rfl, rfl⟩

/-- Claim C7, amended: in the streaming loop of momo2/momo.py, KEY_UP
scrolls up, KEY_DOWN scrolls down, the lowercase letter codes 115 (s)
and 113 (q) stop, and every other key, including k, j, Escape,
uppercase letters and no key, produces no event: there is no k or j
scrolling, no case-insensitive Stop, and no Escape mapping in this
dispatch. -/
theorem stream_key_dispatch (c : Int) :
    streamEvent KEY_UP = StreamEvent.scrollUp
  ∧ streamEvent KEY_DOWN = StreamEvent.scrollDown
  ∧ streamEvent 115 = StreamEvent.stop
  ∧ streamEvent 113 = StreamEvent.stop
  ∧ (c ≠ KEY_UP → c ≠ KEY_DOWN → c ≠ 115 → c ≠ 113 → streamEvent c = StreamEvent.noEvent) := by
  refine ⟨by decide, by decide, by decide, by decide, ?_⟩
  intro h1 h2 h3 h4
  unfold streamEvent
  rw [if_neg h1, if_neg h2, if_neg (not_or.mpr ⟨h3, h4⟩)]

/-- Claim C7, witness: the amended dispatch theorem applied at key code
83 (uppercase S), which produces no event. -/
theorem stream_key_dispatch_witness : streamEvent 83 = StreamEvent.noEvent :=
  (stream_key_dispatch 83).2.2.2.2 (by decide) (by decide) (by decide) (by decide)

/-- Claim C7, counterexample: key codes 107 (k), 106 (j) and 27
(Escape) all produce no event in the streaming dispatch, contradicting
the claimed k to ScrollUp, j to ScrollDown and Escape to Quit mapping. -/
theorem letter_keys_not_mapped :
    streamEvent 107 = StreamEvent.noEvent
  ∧ streamEvent 106 = StreamEvent.noEvent
  ∧ streamEvent 27 = StreamEvent.noEvent
  ∧ StreamEvent.noEvent ≠ StreamEvent.scrollUp := by decide

/-- Claim C8, amended: each of the two cited tool-presence checks
returns true for the members of its own fixed whitelist without
consulting the search-path oracle, and defers to the oracle otherwise;
but the two whitelists differ: momo2/momo9.py uses the five names of
the claim while Momos/momo7.py additionally whitelists uptime, uname
and top. -/
theorem tool_whitelists (t : String) (w : String → Bool) :
    (t ∈ whitelist9 → is_tool_installed_momo9 w t = true)
  ∧ (t ∉ whitelist9 → is_tool_installed_momo9 w t = w t)
  ∧ (t ∈ whitelist7 → is_tool_installed_momo7 w t = true)
  ∧ (t ∉ whitelist7 → is_tool_installed_momo7 w t = w t) := by
  refine ⟨?_, ?_, ?_, ?_⟩ <;> intro ht <;>
    simp [is_tool_installed_momo9, is_tool_installed_momo7, ht]

/-- Claim C8, witness: the amended theorem applied at the tool name
uptime with an always-false search-path oracle. -/
theorem tool_whitelists_witness :
    is_tool_installed_momo9 (fun _ => false) "uptime" = (fun _ => false) "uptime"
  ∧ is_tool_installed_momo7 (fun _ => false) "uptime" = true :=
  ⟨(tool_whitelists "uptime" (fun _ => false)).2.1 (by decide),
   (tool_whitelists "uptime" (fun _ => false)).2.2.1 (by decide)⟩

/-- Claim C8, counterexample: for the tool name uptime, absent from the
claimed five-name whitelist and absent from the search path, the
Momos/momo7.py check still returns true, while the momo2/momo9.py
check returns false as the claim predicts. -/
theorem whitelists_differ :
    is_tool_installed_momo7 (fun _ => false) "uptime" = true
  ∧ ¬ ("uptime" ∈ whitelist9)
  ∧ is_tool_installed_momo9 (fun _ => false) "uptime" = false := by decide

/-- Claim C9: after every sequence of key events the main-menu
selection stays within 0 and the number of menu items minus one (the
13 tests plus Run All plus Exit): KEY_UP clamps at 0 and KEY_DOWN
clamps at the last entry. -/
theorem menu_selection_bounds (keys : List Int) :
    0 ≤ runMenu keys 0 ∧ runMenu keys 0 ≤ (TESTS.length : Int) + 2 - 1 := by
  have hb := runMenu_bounds keys 0 le_rfl (by omega)
  omega

/-- Claim C10: in momo2/momo10.py select_disk, a singleton disk list is
returned immediately for every input schedule (so the user is never
prompted), and a user cancellation outcome is only possible when at
least two disks were enumerated (zero disks yields the no-disks
outcome before any prompt). -/
theorem single_disk_no_prompt (d : String) (disks inputs inputs2 : List String) :
    select_disk10 [d] inputs = SelectOutcome.chosen d
  ∧ (select_disk10 disks inputs2 = SelectOutcome.cancelled → 2 ≤ disks.length) := by
  constructor
  · simp [select_disk10]
  · intro hc
    unfold select_disk10 at hc
    by_cases h0 : disks.length = 0
    · rw [if_pos h0] at hc; simp at hc
    · rw [if_neg h0] at hc
      by_cases h1 : disks.length = 1
      · rw [if_pos h1] at hc; simp at hc
      · omega

/-- Claim C10, witness: the theorem applied at a singleton list and at
a two-disk list with a cancelling input. -/
theorem single_disk_no_prompt_witness :
    select_disk10 ["sda"] [] = SelectOutcome.chosen "sda"
  ∧ 2 ≤ (["sda", "sdb"] : List String).length :=
  ⟨(single_disk_no_prompt "sda" ["sda", "sdb"] [] ["q"]).1,
   (single_disk_no_prompt "sda" ["sda", "sdb"] [] ["q"]).2 (by decide)⟩

end Momo
